import Mathlib

/-!
Shallow embedding of the PromptBOT core (src/index.js, src/unnamed/part_000):
pseudonym generator, language classifier, user registry, DM response pipeline,
points ledger / leaderboard query, and the kudos reaction handler.

JavaScript strings are modelled as lists of UTF-16 code units (`List Nat`),
since the source indexes, measures and pattern-matches strings at the
code-unit level (`text.length`, `s[0]`, regex character classes).
-/

namespace PromptBot

/-- UTF-16 encoding of one Unicode code point: code points below `0x10000`
are a single unit, the rest become a surrogate pair. -/
def utf16Encode (cp : Nat) : List Nat :=
  if cp < 0x10000 then [cp]
  else [0xD800 + (cp - 0x10000) / 0x400, 0xDC00 + (cp - 0x10000) % 0x400]

/-- A JavaScript string literal as its list of UTF-16 code units. -/
def jsStr (s : String) : List Nat :=
  (s.data.map Char.toNat).flatMap utf16Encode

/-- One code unit lies in the Hiragana, Katakana or common-kanji block
(the character class of `japanesePattern` in `detectLanguage`). -/
def isJaUnit (c : Nat) : Bool :=
  (0x3040 ≤ c && c ≤ 0x309F) || (0x30A0 ≤ c && c ≤ 0x30FF) ||
    (0x4E00 ≤ c && c ≤ 0x9FAF)

/-- `japanesePattern.test text`: some code unit is in a Japanese block. -/
def hasJa (t : List Nat) : Bool := t.any isJaUnit

/-- The code units matched by `\s` in a JavaScript regex, which is also the
set removed by `String.prototype.trim` (WhiteSpace ∪ LineTerminator). -/
def isJsSpace (c : Nat) : Bool :=
  c == 0x9 || c == 0xA || c == 0xB || c == 0xC || c == 0xD || c == 0x20 ||
    c == 0xA0 || c == 0x1680 || (0x2000 ≤ c && c ≤ 0x200A) || c == 0x2028 ||
    c == 0x2029 || c == 0x202F || c == 0x205F || c == 0x3000 || c == 0xFEFF

/-- `text.trim()`: strip leading and trailing JS whitespace. -/
def jsTrim (t : List Nat) : List Nat :=
  ((t.dropWhile isJsSpace).reverse.dropWhile isJsSpace).reverse

/-- One code unit from the character class of `englishPattern`,
`[a-zA-Z\s.,!?'"()-]`. -/
def isEnClassUnit (c : Nat) : Bool :=
  (0x41 ≤ c && c ≤ 0x5A) || (0x61 ≤ c && c ≤ 0x7A) || isJsSpace c ||
    c == 0x2E || c == 0x2C || c == 0x21 || c == 0x3F || c == 0x27 ||
    c == 0x22 || c == 0x28 || c == 0x29 || c == 0x2D

/-- `englishPattern.test(text.trim())`: the anchored pattern
`^[a-zA-Z\s.,!?'"()-]+$` matches the trimmed text. -/
def matchesEnglish (t : List Nat) : Bool :=
  !(jsTrim t).isEmpty && (jsTrim t).all isEnClassUnit

/-- `detectLanguage` from src/index.js: Japanese-block test first, then the
ASCII-letter/punctuation pattern on the trimmed text, then the
length-over-50 fallback, else `unknown`. -/
def detectLanguage (t : List Nat) : String :=
  if hasJa t then "ja"
  else if matchesEnglish t then "en"
  else if decide (t.length > 50) && !(hasJa t) then "en"
  else "unknown"

/-! ### Pseudonym generator -/

/-- The emoji tables of `generatePseudonym`, as UTF-16 unit lists:
`['🐼','🦊','🐰','🦆','🐸','🦋','🐝','🐧','🐨','🦘']`. -/
def animals : List (List Nat) :=
  [utf16Encode 0x1F43C, utf16Encode 0x1F98A, utf16Encode 0x1F430,
   utf16Encode 0x1F986, utf16Encode 0x1F438, utf16Encode 0x1F98B,
   utf16Encode 0x1F41D, utf16Encode 0x1F427, utf16Encode 0x1F428,
   utf16Encode 0x1F998]

/-- `['🌱','🌿','🌸','🌺','🌻','🌲','🎋','🌴','🍀','🌵']`. -/
def plants : List (List Nat) :=
  [utf16Encode 0x1F331, utf16Encode 0x1F33F, utf16Encode 0x1F338,
   utf16Encode 0x1F33A, utf16Encode 0x1F33B, utf16Encode 0x1F332,
   utf16Encode 0x1F38B, utf16Encode 0x1F334, utf16Encode 0x1F340,
   utf16Encode 0x1F335]

/-- The outcomes of the five `Math.random()` draws in `generatePseudonym`:
two letter indices, `Math.floor(Math.random()*99)`, and the two emoji
indices. -/
structure Draw where
  l1 : Fin 26
  l2 : Fin 26
  num : Fin 99
  animal : Fin 10
  plant : Fin 10

/-- Decimal digits of `n` as code units (template-literal interpolation
of a number). -/
def natDigits (n : Nat) : List Nat := (Nat.toDigits 10 n).map Char.toNat

/-- `generatePseudonym`:
`` `${letter1}${letter2}-${number} ${animal}${plant}` `` where the letters
come from `'ABCDEFGHIJKLMNOPQRSTUVWXYZ'` and `number = draw + 1 ∈ [1,99]`. -/
def generatePseudonym (d : Draw) : List Nat :=
  [(jsStr "ABCDEFGHIJKLMNOPQRSTUVWXYZ").getD d.l1.val 0,
   (jsStr "ABCDEFGHIJKLMNOPQRSTUVWXYZ").getD d.l2.val 0] ++
    [0x2D] ++ natDigits (d.num.val + 1) ++ [0x20] ++
    animals.getD d.animal.val [] ++ plants.getD d.plant.val []

/-- `s.split(' ')` on a JS string: split at every space unit. -/
def splitOnSpaceAux : List Nat → List Nat → List (List Nat)
  | [], acc => [acc.reverse]
  | c :: rest, acc =>
    if c == 0x20 then acc.reverse :: splitOnSpaceAux rest []
    else splitOnSpaceAux rest (c :: acc)

def splitOnSpace (t : List Nat) : List (List Nat) := splitOnSpaceAux t []

/-- `s[i]` on a JS string: the one-code-unit string at index `i`
(empty when out of range, standing for `undefined`). -/
def jsCharAt (s : List Nat) (i : Nat) : List Nat := (s.drop i).take 1

/-! ### Data model: the four registries -/

structure User where
  id : String
  teamId : String
  targetLanguage : Option String
  createdAt : Nat
deriving DecidableEq, Repr

structure Pseudonym where
  handle : List Nat
  emoji1 : List Nat
  emoji2 : List Nat
  cohortLabel : Option String
deriving DecidableEq, Repr

structure Submission where
  userId : String
  pseudonym : List Nat
  text : List Nat
  language : String
  targetLanguage : String
  timestamp : Nat
  feedback : List Nat
  channelPostTs : String
deriving DecidableEq, Repr

/-- The `pseudonymData` object built in `getOrCreateUser`:
`emoji1 = pseudonym.split(' ')[1][0]`, `emoji2 = pseudonym.split(' ')[1][1]`
(JS indexing is by UTF-16 code unit). -/
def mkPseudonymData (pseudonym : List Nat) : Pseudonym :=
  { handle := pseudonym
    emoji1 := jsCharAt ((splitOnSpace pseudonym).getD 1 []) 0
    emoji2 := jsCharAt ((splitOnSpace pseudonym).getD 1 []) 1
    cohortLabel := none }

/-- A JS `Map` as an association list in insertion order: `set` of a present
key updates in place, `set` of a fresh key appends. -/
def mapGet (k : String) : List (String × α) → Option α
  | [] => none
  | (k', v) :: rest => if k' == k then some v else mapGet k rest

def mapHas (k : String) (m : List (String × α)) : Bool := (mapGet k m).isSome

def mapSet (k : String) (v : α) : List (String × α) → List (String × α)
  | [] => [(k, v)]
  | (k', v') :: rest =>
    if k' == k then (k, v) :: rest else (k', v') :: mapSet k v rest

/-- The four in-memory registries (`users`, `pseudonyms`, `points`,
`submissions`). -/
structure BotState where
  users : List (String × User)
  pseudonyms : List (String × Pseudonym)
  points : List (String × Nat)
  submissions : List (String × Submission)
deriving DecidableEq, Repr

/-- A user's point total as read by the handlers: `points.get(id) || 0`. -/
def pointsTotal (uid : String) (st : BotState) : Nat :=
  (mapGet uid st.points).getD 0

/-- `getOrCreateUser(userId, teamId)` from src/index.js. The `Draw` stands
for the `Math.random()` outcomes, `now` for `new Date()`. Database syncs are
the external persistence mirror and carry no in-memory effect. -/
def getOrCreateUser (d : Draw) (now : Nat) (st : BotState)
    (userId teamId : String) : BotState × User :=
  let st :=
    if !(mapHas userId st.users) then
      let pseudonym := generatePseudonym d
      let userData : User :=
        { id := userId, teamId := teamId, targetLanguage := none,
          createdAt := now }
      { st with
        users := mapSet userId userData st.users
        pseudonyms := mapSet userId (mkPseudonymData pseudonym) st.pseudonyms
        points := mapSet userId 0 st.points }
    else st
  let st :=
    if !(mapHas userId st.pseudonyms) then
      { st with
        pseudonyms :=
          mapSet userId (mkPseudonymData (generatePseudonym d)) st.pseudonyms }
    else st
  let st :=
    if !(mapHas userId st.points) then
      { st with points := mapSet userId 0 st.points }
    else st
  (st, (mapGet userId st.users).getD
    { id := userId, teamId := teamId, targetLanguage := none, createdAt := now })

/-! ### DM response pipeline (`app.message` handler in src/index.js) -/

/-- The process configuration the handler reads:
`SLACK_BOT_USER_ID` and `PROMPT_CHANNEL_ID`. -/
structure Env where
  botUserId : String
  promptChannelId : Option String

/-- An inbound message event: `channel_type`, `user` and optional `text`. -/
structure Msg where
  channel_type : String
  user : String
  text : Option (List Nat)

/-- One outbound `chat.postMessage` call: target channel (a user id for a
DM) and its text content. -/
structure Post where
  channel : String
  text : List Nat
deriving DecidableEq, Repr

def warnUnknownText : List Nat :=
  jsStr "⚠️ I couldn\x27t detect the language clearly. Please try writing in your target language."

def warnJaText : List Nat :=
  jsStr "🇯🇵 Please respond in Japanese! Your target language is set to Japanese."

def warnEnText : List Nat :=
  jsStr "🇺🇸 Please respond in English! Your target language is set to English."

def tipText : List Nat :=
  jsStr "\n\n💡 Tip: You can change your target language in the Home tab if needed."

/-- The DM response handler (`app.message`, src/index.js). Parameters stand
for the external collaborators: `fb` is `generateAIFeedback`, `d`/`now` the
randomness and clock inside `getOrCreateUser`, `subId` the `uuidv4()` result,
`postTs` the message timestamp returned by the public post. Returns the
updated registries and the list of `chat.postMessage` calls issued. -/
def handleMessage (env : Env) (fb : List Nat → String → List Nat) (d : Draw)
    (now : Nat) (subId postTs : String) (st : BotState) (msg : Msg) :
    BotState × List Post :=
  if msg.channel_type != "im" then (st, [])
  else if msg.user == env.botUserId then (st, [])
  else
    match msg.text with
    | none => (st, [])
    | some responseText =>
      if (jsTrim responseText).length == 0 then (st, [])
      else
        let r := getOrCreateUser d now st msg.user "default"
        let st := r.1
        let user := r.2
        match user.targetLanguage with
        | none =>
          (st, [⟨msg.user,
            jsStr "👋 Please set your target language first! Go to the Home tab and choose Japanese or English."⟩])
        | some expectedLanguage =>
          let detectedLanguage := detectLanguage responseText
          let wp : List Nat × Bool :=
            if detectedLanguage == "unknown" then (warnUnknownText, false)
            else if detectedLanguage != expectedLanguage then
              (if expectedLanguage == "ja" && detectedLanguage == "en" then
                warnJaText
              else if expectedLanguage == "en" && detectedLanguage == "ja" then
                warnEnText
              else [], false)
            else ([], true)
          if !wp.2 then (st, [⟨msg.user, wp.1 ++ tipText⟩])
          else
            match env.promptChannelId with
            | none =>
              (st, [⟨msg.user,
                jsStr "❌ No prompt channel configured. Please contact an admin."⟩])
            | some channelId =>
              let pseudonym :=
                (mapGet msg.user st.pseudonyms).getD ⟨[], [], [], none⟩
              let feedback := fb responseText expectedLanguage
              let currentPoints := (mapGet msg.user st.points).getD 0
              let newPoints := currentPoints + 1
              let st := { st with points := mapSet msg.user newPoints st.points }
              let sub : Submission :=
                { userId := msg.user, pseudonym := pseudonym.handle,
                  text := responseText, language := detectedLanguage,
                  targetLanguage := expectedLanguage, timestamp := now,
                  feedback := feedback, channelPostTs := postTs }
              let st :=
                { st with submissions := mapSet subId sub st.submissions }
              (st,
               [⟨channelId, jsStr "💬 Anonymous Response from " ++ pseudonym.handle⟩,
                ⟨msg.user,
                 jsStr "✅ Your response has been posted anonymously as " ++
                   pseudonym.handle ++ jsStr "!"⟩])

/-- `pat` occurs as a contiguous run inside `s`. -/
def seqContains (pat s : List Nat) : Bool :=
  (List.range (s.length + 1)).any (fun i => pat.isPrefixOf (s.drop i))

/-- The English name of a supported language code. -/
def languageName (l : String) : List Nat :=
  if l == "ja" then jsStr "Japanese" else jsStr "English"

/-- A reply text names the language `l`. -/
def namesLanguage (l : String) (text : List Nat) : Bool :=
  seqContains (languageName l) text

/-! ### Kudos reaction handler (`app.event('reaction_added')`,
src/unnamed/part_000) -/

/-- A `reaction_added` event: the emoji name, the reacting user, and the
reacted-to item (its author and timestamp). -/
structure ReactionEvent where
  reaction : String
  user : String
  item_user : String
  item_ts : String

def kudosReactions : List String := ["white_check_mark", "star", "star2", "clap"]

/-- The kudos handler: for a qualifying reaction,
`points.set(reactorId, (points.get(reactorId) || 0) + 1)`. -/
def handleReactionKudos (st : BotState) (ev : ReactionEvent) : BotState :=
  if !(kudosReactions.contains ev.reaction) then st
  else
    { st with
      points :=
        mapSet ev.user ((mapGet ev.user st.points).getD 0 + 1) st.points }

/-! ### Leaderboard query (`app.command('/leaderboard')`, src/index.js) -/

/-- Descending order on point totals, the order produced by the comparator
`(a, b) => b[1] - a[1]`. -/
def pointsGE (a b : String × Nat) : Prop := b.2 ≤ a.2

instance : DecidableRel pointsGE := fun a b => Nat.decLe b.2 a.2

instance : IsTotal (String × Nat) pointsGE :=
  ⟨fun a b => Nat.le_total b.2 a.2⟩

instance : IsTrans (String × Nat) pointsGE :=
  ⟨fun _ _ _ h h' => Nat.le_trans h' h⟩

/-- `Array.from(points.entries()).sort((a, b) => b[1] - a[1]).slice(0, n)`:
JS `sort` is stable, so it agrees with insertion sort under `pointsGE`;
`slice(0, n)` is `take n`. The `/leaderboard` command uses `n = 10`. -/
def topN (n : Nat) (entries : List (String × Nat)) : List (String × Nat) :=
  (List.insertionSort pointsGE entries).take n

/-- The list built by the `/leaderboard` handler before formatting. -/
def leaderboardTop (st : BotState) : List (String × Nat) := topN 10 st.points

/-! ### Concrete fixtures used by witnesses and counterexamples -/

def d0 : Draw := ⟨0, 0, 0, 0, 0⟩

def env0 : Env := ⟨"BOT", some "CH"⟩

def fb0 : List Nat → String → List Nat := fun _ _ => jsStr "Nice work!"

def uJa : User :=
  { id := "U", teamId := "T", targetLanguage := some "ja", createdAt := 0 }

def stW : BotState :=
  { users := [("U", uJa)],
    pseudonyms := [("U", mkPseudonymData (generatePseudonym d0))],
    points := [("U", 5)],
    submissions := [] }

/-! ## Helper lemmas -/

theorem mapGet_mapSet_self (k : String) (v : α) (m : List (String × α)) :
    mapGet k (mapSet k v m) = some v := by
  induction m with
  | nil => simp [mapGet, mapSet]
  | cons hd tl ih =>
    obtain ⟨k', v'⟩ := hd
    by_cases h : k' = k
    · simp [mapGet, mapSet, h]
    · simp [mapGet, mapSet, h, ih]

theorem mapSet_of_fresh (k : String) (v : α) (m : List (String × α))
    (h : mapGet k m = none) : mapSet k v m = m ++ [(k, v)] := by
  induction m with
  | nil => simp [mapSet]
  | cons hd tl ih =>
    obtain ⟨k', v'⟩ := hd
    by_cases hk : k' = k
    · simp [mapGet, hk] at h
    · simp [mapGet, hk] at h
      simp [mapSet, hk, ih h]

theorem mem_of_mem_dropWhile {p : Nat → Bool} {c : Nat} :
    ∀ {t : List Nat}, c ∈ t.dropWhile p → c ∈ t := by
  intro t
  induction t with
  | nil => simp [List.dropWhile]
  | cons hd tl ih =>
    simp only [List.dropWhile]
    intro h
    by_cases hp : p hd
    · simp [hp] at h
      exact List.mem_cons_of_mem hd (ih h)
    · simpa [hp] using h

theorem mem_dropWhile_of_neg {p : Nat → Bool} {c : Nat} (hc : p c = false) :
    ∀ {t : List Nat}, c ∈ t → c ∈ t.dropWhile p := by
  intro t
  induction t with
  | nil => simp
  | cons hd tl ih =>
    intro h
    simp only [List.dropWhile]
    by_cases hp : p hd
    · rcases List.mem_cons.mp h with rfl | h'
      · rw [hp] at hc; cases hc
      · simpa [hp] using ih h'
    · simpa [hp] using h

theorem mem_of_mem_jsTrim {c : Nat} {t : List Nat} (h : c ∈ jsTrim t) :
    c ∈ t := by
  unfold jsTrim at h
  rw [List.mem_reverse] at h
  have h1 := mem_of_mem_dropWhile h
  rw [List.mem_reverse] at h1
  exact mem_of_mem_dropWhile h1

theorem mem_jsTrim_of_not_space {c : Nat} {t : List Nat} (hc : isJsSpace c = false)
    (h : c ∈ t) : c ∈ jsTrim t := by
  unfold jsTrim
  rw [List.mem_reverse]
  exact mem_dropWhile_of_neg hc
    (List.mem_reverse.mpr (mem_dropWhile_of_neg hc h))

theorem enClassUnit_not_ja {c : Nat} (h : isEnClassUnit c = true) :
    isJaUnit c = false := by
  simp only [isEnClassUnit, isJsSpace, Bool.or_eq_true, Bool.and_eq_true,
    decide_eq_true_eq, beq_iff_eq] at h
  rw [Bool.eq_false_iff]
  simp only [ne_eq, isJaUnit, Bool.or_eq_true, Bool.and_eq_true,
    decide_eq_true_eq]
  omega

theorem detectLanguage_cases (t : List Nat) :
    detectLanguage t = "ja" ∨ detectLanguage t = "en" ∨
      detectLanguage t = "unknown" := by
  unfold detectLanguage
  split
  · exact Or.inl rfl
  · split
    · exact Or.inr (Or.inl rfl)
    · split
      · exact Or.inr (Or.inl rfl)
      · exact Or.inr (Or.inr rfl)

theorem goc_submissions (d : Draw) (now : Nat) (st : BotState)
    (uid tid : String) :
    ((getOrCreateUser d now st uid tid).1).submissions = st.submissions := by
  simp only [getOrCreateUser]
  split <;> split <;> split <;> rfl

theorem goc_snd_of_present (d : Draw) (now : Nat) (st : BotState)
    (uid tid : String) (u : User) (hu : mapGet uid st.users = some u) :
    (getOrCreateUser d now st uid tid).2 = u := by
  have hh : mapHas uid st.users = true := by simp [mapHas, hu]
  simp only [getOrCreateUser, hh, Bool.not_true, Bool.false_eq_true,
    if_false]
  split <;> split <;> simp [hu]

theorem goc_points_of_present (d : Draw) (now : Nat) (st : BotState)
    (uid tid : String) (hu : mapHas uid st.users = true) :
    mapGet uid ((getOrCreateUser d now st uid tid).1).points
      = some (pointsTotal uid st) := by
  simp only [getOrCreateUser, hu, Bool.not_true, Bool.false_eq_true,
    if_false]
  split
  all_goals
    rcases hq : mapHas uid st.points with _ | _
    · have hge : mapGet uid st.points = none := by
        simpa [mapHas, Option.isSome_iff_exists] using hq
      simp [hq, mapGet_mapSet_self, pointsTotal, hge]
    · obtain ⟨v, hv⟩ : ∃ v, mapGet uid st.points = some v := by
        simpa [mapHas, Option.isSome_iff_exists] using hq
      simp [hq, pointsTotal, hv]

theorem goc_of_all_present (d : Draw) (now : Nat) (st : BotState)
    (uid tid : String) (u : User) (hu : mapGet uid st.users = some u)
    (hp : mapHas uid st.pseudonyms = true)
    (hq : mapHas uid st.points = true) :
    getOrCreateUser d now st uid tid = (st, u) := by
  have h1 : mapHas uid st.users = true := by simp [mapHas, hu]
  simp [getOrCreateUser, h1, hp, hq, hu]

theorem goc_of_fresh (d : Draw) (now : Nat) (st : BotState)
    (uid tid : String) (hnew : mapGet uid st.users = none) :
    getOrCreateUser d now st uid tid =
      ({ st with
          users := mapSet uid
            { id := uid, teamId := tid, targetLanguage := none,
              createdAt := now } st.users
          pseudonyms :=
            mapSet uid (mkPseudonymData (generatePseudonym d)) st.pseudonyms
          points := mapSet uid 0 st.points },
       { id := uid, teamId := tid, targetLanguage := none,
         createdAt := now }) := by
  simp [getOrCreateUser, mapHas, hnew, mapGet_mapSet_self]

/-! ## Claim theorems -/

/-- C3: every text containing at least one code unit in the Hiragana,
Katakana or common-kanji Unicode ranges is classified `ja`, whatever else it
contains. -/
theorem classifier_japanese_dominates (t : List Nat) (c : Nat) (hc : c ∈ t)
    (hr : (0x3040 ≤ c ∧ c ≤ 0x309F) ∨ (0x30A0 ≤ c ∧ c ≤ 0x30FF) ∨
      (0x4E00 ≤ c ∧ c ≤ 0x9FAF)) :
    detectLanguage t = "ja" := by
  have hja : hasJa t = true := by
    rw [hasJa, List.any_eq_true]
    refine ⟨c, hc, ?_⟩
    simp only [isJaUnit, Bool.or_eq_true, Bool.and_eq_true, decide_eq_true_eq]
    omega
  simp [detectLanguage, hja]

/-- C3 witness: `"hello こ world"` contains the hiragana `こ` (U+3053) and is
classified `ja`. -/
theorem classifier_japanese_dominates_witness :
    detectLanguage (jsStr "hello こ world") = "ja" :=
  classifier_japanese_dominates (jsStr "hello こ world") 0x3053 (by decide)
    (by decide)

/-- C4: text whose code units all lie in the `englishPattern` character
class (ASCII letters, the punctuation `.,!?'"()-`, whitespace), with at
least one non-whitespace unit, is classified `en`. -/
theorem classifier_ascii_en (t : List Nat)
    (hall : ∀ c ∈ t, isEnClassUnit c = true)
    (hsome : ∃ c ∈ t, isEnClassUnit c = true ∧ isJsSpace c = false) :
    detectLanguage t = "en" := by
  have hja : hasJa t = false := by
    rw [hasJa, List.any_eq_false]
    intro c hc
    simp [enClassUnit_not_ja (hall c hc)]
  have hen : matchesEnglish t = true := by
    obtain ⟨c, hct, _, hcs⟩ := hsome
    have hmem : c ∈ jsTrim t := mem_jsTrim_of_not_space hcs hct
    rw [matchesEnglish, Bool.and_eq_true]
    constructor
    · simp [List.isEmpty_iff]
      exact List.ne_nil_of_mem hmem
    · rw [List.all_eq_true]
      intro c' hc'
      exact hall c' (mem_of_mem_jsTrim hc')
  simp [detectLanguage, hja, hen]

/-- C4 witness: `"Hello, world."` is classified `en`. -/
theorem classifier_ascii_en_witness :
    detectLanguage (jsStr "Hello, world.") = "en" :=
  classifier_ascii_en (jsStr "Hello, world.") (by decide) (by decide)

/-- C5: with no Japanese-range units and the ASCII pattern failing, texts of
length over 50 code units are classified `en` and texts of length at most 50
are classified `unknown`. -/
theorem classifier_length_fallback (t : List Nat)
    (hja : ∀ c ∈ t, isJaUnit c = false)
    (hen : matchesEnglish t = false) :
    (50 < t.length → detectLanguage t = "en") ∧
    (t.length ≤ 50 → detectLanguage t = "unknown") := by
  have hja' : hasJa t = false := by
    rw [hasJa, List.any_eq_false]
    exact fun c hc => by simp [hja c hc]
  constructor
  · intro hlen
    simp [detectLanguage, hja', hen, hlen]
  · intro hlen
    simp [detectLanguage, hja', hen, Nat.not_lt.mpr hlen]

/-- C5 witness: 51 digit characters are classified `en`, 3 digits are
classified `unknown`. -/
theorem classifier_length_fallback_witness :
    detectLanguage (List.replicate 51 0x31) = "en" ∧
    detectLanguage (jsStr "123") = "unknown" :=
  ⟨(classifier_length_fallback (List.replicate 51 0x31) (by decide)
      (by decide)).1 (by decide),
   (classifier_length_fallback (jsStr "123") (by decide) (by decide)).2
      (by decide)⟩

/-- C6: `getOrCreateUser` is idempotent. For a previously unseen user id,
the second call (with any fresh randomness, clock or team id) returns
exactly the state and user produced by the first call — the same pseudonym
handle and the same 0-point entry, with no additional records — and the
first call stored the generated pseudonym and a 0 points entry. -/
theorem getOrCreateUser_idempotent (d d' : Draw) (now now' : Nat)
    (st : BotState) (uid tid tid' : String)
    (hnew : mapGet uid st.users = none) :
    getOrCreateUser d' now' (getOrCreateUser d now st uid tid).1 uid tid'
        = getOrCreateUser d now st uid tid ∧
    mapGet uid (getOrCreateUser d now st uid tid).1.pseudonyms
        = some (mkPseudonymData (generatePseudonym d)) ∧
    mapGet uid (getOrCreateUser d now st uid tid).1.points = some 0 := by
  rw [goc_of_fresh d now st uid tid hnew]
  refine ⟨?_, by simp [mapGet_mapSet_self], by simp [mapGet_mapSet_self]⟩
  exact goc_of_all_present d' now' _ uid tid' _ (mapGet_mapSet_self ..)
    (by simp [mapHas, mapGet_mapSet_self]) (by simp [mapHas, mapGet_mapSet_self])

/-- C6 witness: creating user `"U"` in the empty state and calling again
with different randomness returns the identical state and user. -/
theorem getOrCreateUser_idempotent_witness :
    getOrCreateUser ⟨1, 2, 3, 4, 5⟩ 9 (getOrCreateUser d0 0 ⟨[], [], [], []⟩
        "U" "T").1 "U" "T2"
      = getOrCreateUser d0 0 ⟨[], [], [], []⟩ "U" "T" ∧
    mapGet "U" (getOrCreateUser d0 0 ⟨[], [], [], []⟩ "U" "T").1.pseudonyms
      = some (mkPseudonymData (generatePseudonym d0)) ∧
    mapGet "U" (getOrCreateUser d0 0 ⟨[], [], [], []⟩ "U" "T").1.points
      = some 0 :=
  getOrCreateUser_idempotent d0 ⟨1, 2, 3, 4, 5⟩ 0 9 ⟨[], [], [], []⟩
    "U" "T" "T2" (by decide)

/-- C9 (code behavior at a concrete draw): the stored `emoji1` and `emoji2`
are the two UTF-16 surrogate halves of the creature emoji, not the creature
and the plant emoji. With draw indices all 0 the handle is `"AA-1 🐼🌱"`;
`emoji1` is `[0xD83D]` (high surrogate of 🐼) and `emoji2` is `[0xDC3C]`
(low surrogate of 🐼), while 🐼 is `[0xD83D, 0xDC3C]` and 🌱 is
`[0xD83C, 0xDF31]`. -/
theorem pseudonym_emoji_fields_are_surrogate_halves :
    mapGet "U" ((getOrCreateUser d0 0 ⟨[], [], [], []⟩ "U" "T").1).pseudonyms
      = some (mkPseudonymData (generatePseudonym d0)) ∧
    (mkPseudonymData (generatePseudonym d0)).emoji1 = [0xD83D] ∧
    (mkPseudonymData (generatePseudonym d0)).emoji2 = [0xDC3C] ∧
    animals.getD 0 [] = [0xD83D, 0xDC3C] ∧
    plants.getD 0 [] = [0xD83C, 0xDF31] ∧
    (mkPseudonymData (generatePseudonym d0)).emoji1 ≠ animals.getD 0 [] ∧
    (mkPseudonymData (generatePseudonym d0)).emoji2 ≠ plants.getD 0 [] := by
  decide

theorem insertionSort_stable_filter (entries : List (String × Nat)) (k : Nat) :
    (List.insertionSort pointsGE entries).filter (fun e => e.2 == k)
      = entries.filter (fun e => e.2 == k) := by
  have hall : ∀ x ∈ entries.filter (fun e => e.2 == k), x.2 = k := by
    intro x hx
    simpa using (List.mem_filter.mp hx).2
  have hr : (entries.filter (fun e => e.2 == k)).Pairwise pointsGE := by
    apply List.pairwise_of_forall_mem_list
    intro a ha b hb
    unfold pointsGE
    rw [hall a ha, hall b hb]
  have hsub : List.Sublist (entries.filter (fun e => e.2 == k))
      (List.insertionSort pointsGE entries) :=
    List.sublist_insertionSort hr (List.filter_sublist entries)
  have hsub2 : List.Sublist (entries.filter (fun e => e.2 == k))
      ((List.insertionSort pointsGE entries).filter (fun e => e.2 == k)) := by
    have h2 := hsub.filter (fun e => e.2 == k)
    rwa [List.filter_eq_self.mpr (fun a ha => by simp [hall a ha])] at h2
  have hperm : ((List.insertionSort pointsGE entries).filter
        (fun e => e.2 == k)).Perm (entries.filter (fun e => e.2 == k)) :=
    (List.perm_insertionSort pointsGE entries).filter _
  exact (hsub2.eq_of_length hperm.length_eq.symm).symm

/-- C7: `topN` returns the entries sorted by point total in descending
order, truncated to at most `n`, with ties kept in insertion order (the
entries at any fixed point total come out exactly as they went in); on
points `{A:5, B:9, C:1, D:9}` in insertion order, `topN 3` returns `B`,
then `D`, then `A`, omitting `C`. -/
theorem topN_sorted_truncated (n : Nat) (entries : List (String × Nat)) :
    List.Sorted pointsGE (topN n entries) ∧
    (topN n entries).length ≤ n ∧
    (∀ k : Nat, (List.insertionSort pointsGE entries).filter
        (fun e => e.2 == k) = entries.filter (fun e => e.2 == k)) ∧
    topN 3 [("A", 5), ("B", 9), ("C", 1), ("D", 9)]
      = [("B", 9), ("D", 9), ("A", 5)] := by
  refine ⟨?_, ?_, insertionSort_stable_filter entries, by decide⟩
  · exact List.Pairwise.sublist (List.take_sublist n _)
      (List.sorted_insertionSort pointsGE entries)
  · exact List.length_take_le n (List.insertionSort pointsGE entries)

/-- C8: a reaction from the fixed kudos set, on any message (including the
reactor's own, and whatever the reactor's target language or registry state
is), increments the reacting user's point total by exactly 1 and touches no
other registry. -/
theorem kudos_reaction_increments (st : BotState) (ev : ReactionEvent)
    (h : ev.reaction ∈ kudosReactions) :
    pointsTotal ev.user (handleReactionKudos st ev)
        = pointsTotal ev.user st + 1 ∧
    (handleReactionKudos st ev).users = st.users ∧
    (handleReactionKudos st ev).pseudonyms = st.pseudonyms ∧
    (handleReactionKudos st ev).submissions = st.submissions := by
  simp [handleReactionKudos, h, pointsTotal, mapGet_mapSet_self]

/-- C8 witness: a `star` reaction by user `U` on `U`'s own message, with `U`
holding 5 points, yields 6 points and unchanged registries. -/
theorem kudos_reaction_increments_witness :
    pointsTotal "U" (handleReactionKudos stW ⟨"star", "U", "U", "TS"⟩)
        = pointsTotal "U" stW + 1 ∧
    (handleReactionKudos stW ⟨"star", "U", "U", "TS"⟩).users = stW.users ∧
    (handleReactionKudos stW ⟨"star", "U", "U", "TS"⟩).pseudonyms
        = stW.pseudonyms ∧
    (handleReactionKudos stW ⟨"star", "U", "U", "TS"⟩).submissions
        = stW.submissions :=
  kudos_reaction_increments stW ⟨"star", "U", "U", "TS"⟩ (by decide)

/-- C10: a DM whose text is absent or trims to nothing is ignored: the
handler returns the state unchanged and issues no `chat.postMessage` call
at all. -/
theorem empty_dm_ignored (env : Env) (fb : List Nat → String → List Nat)
    (d : Draw) (now : Nat) (subId postTs : String) (st : BotState) (msg : Msg)
    (him : msg.channel_type = "im")
    (hbot : (msg.user == env.botUserId) = false)
    (htext : msg.text = none ∨
      ∃ t, msg.text = some t ∧ (jsTrim t).length = 0) :
    handleMessage env fb d now subId postTs st msg = (st, []) := by
  rcases htext with h | ⟨t, h, hlen⟩
  · simp [handleMessage, him, hbot, h]
  · simp [handleMessage, him, hbot, h, hlen]

/-- C10 witness: a whitespace-only DM from `U` leaves the registries and
output untouched. -/
theorem empty_dm_ignored_witness :
    handleMessage env0 fb0 d0 0 "S1" "TS" stW ⟨"im", "U", some (jsStr "   ")⟩
      = (stW, []) :=
  empty_dm_ignored env0 fb0 d0 0 "S1" "TS" stW ⟨"im", "U", some (jsStr "   ")⟩
    rfl (by decide) (Or.inr ⟨jsStr "   ", rfl, by decide⟩)

/-- C1: a DM from a user whose stored target language equals the classified
language of the text (with the prompt channel configured and a fresh
submission id) increments that user's point total by exactly the reward
amount 1, exactly once, and appends exactly one Submission record whose
detected language and target language both equal that language. -/
theorem dm_accept_awards_points_and_submission
    (env : Env) (fb : List Nat → String → List Nat) (d : Draw) (now : Nat)
    (subId postTs : String) (st : BotState) (msg : Msg) (t : List Nat)
    (u : User) (L ch : String)
    (him : msg.channel_type = "im")
    (hbot : (msg.user == env.botUserId) = false)
    (htext : msg.text = some t)
    (hne : (jsTrim t).length ≠ 0)
    (huser : mapGet msg.user st.users = some u)
    (htgt : u.targetLanguage = some L)
    (hL : L = "en" ∨ L = "ja")
    (hdet : detectLanguage t = L)
    (hch : env.promptChannelId = some ch)
    (hfresh : mapGet subId st.submissions = none) :
    pointsTotal msg.user (handleMessage env fb d now subId postTs st msg).1
      = pointsTotal msg.user st + 1 ∧
    ∃ sub : Submission,
      (handleMessage env fb d now subId postTs st msg).1.submissions
        = st.submissions ++ [(subId, sub)] ∧
      sub.language = L ∧ sub.targetLanguage = L ∧
      sub.userId = msg.user ∧ sub.text = t := by
  have hne' : (((jsTrim t).length == 0) : Bool) = false := by simpa using hne
  have hu' : mapHas msg.user st.users = true := by simp [mapHas, huser]
  have hsnd := goc_snd_of_present d now st msg.user "default" u huser
  have hpts := goc_points_of_present d now st msg.user "default" hu'
  have hsubs := goc_submissions d now st msg.user "default"
  have hfresh' :
      mapGet subId ((getOrCreateUser d now st msg.user "default").1).submissions
        = none := by rw [hsubs]; exact hfresh
  rcases hL with rfl | rfl <;>
  · simp [handleMessage, him, hbot, htext, hne', hsnd, htgt, hdet, hch,
      pointsTotal, mapGet_mapSet_self, hpts, hsubs]
    exact ⟨_, mapSet_of_fresh _ _ _ hfresh, rfl, rfl, rfl, rfl⟩

/-- C1 witness: user `U` with target `ja` sends `"こんにちは"`; points go
from 5 to 6 and one `ja`/`ja` Submission is appended. -/
theorem dm_accept_awards_points_and_submission_witness :
    pointsTotal "U" (handleMessage env0 fb0 d0 0 "S1" "TS" stW
        ⟨"im", "U", some (jsStr "こんにちは")⟩).1
      = pointsTotal "U" stW + 1 ∧
    ∃ sub : Submission,
      (handleMessage env0 fb0 d0 0 "S1" "TS" stW
          ⟨"im", "U", some (jsStr "こんにちは")⟩).1.submissions
        = stW.submissions ++ [("S1", sub)] ∧
      sub.language = "ja" ∧ sub.targetLanguage = "ja" ∧
      sub.userId = "U" ∧ sub.text = jsStr "こんにちは" :=
  dm_accept_awards_points_and_submission env0 fb0 d0 0 "S1" "TS" stW
    ⟨"im", "U", some (jsStr "こんにちは")⟩ (jsStr "こんにちは") uJa "ja" "CH"
    rfl (by decide) rfl (by decide) (by decide) rfl (Or.inr rfl) (by decide)
    rfl (by decide)

set_option maxRecDepth 20000 in
/-- C2 counterexample: user `U` has target language `ja`; the DM `"123"`
classifies as `unknown`, so it is rejected — but the single corrective
reply sent to `U` does not name the expected language (neither `"Japanese"`
nor `"日本語"` occurs in it), contradicting the claim that a corrective
reply naming the expected language is sent. -/
theorem dm_reject_unknown_reply_names_no_language :
    mapGet "U" stW.users = some uJa ∧ uJa.targetLanguage = some "ja" ∧
    detectLanguage (jsStr "123") = "unknown" ∧
    ((handleMessage env0 fb0 d0 0 "S1" "TS" stW
        ⟨"im", "U", some (jsStr "123")⟩).2).length = 1 ∧
    ((handleMessage env0 fb0 d0 0 "S1" "TS" stW
        ⟨"im", "U", some (jsStr "123")⟩).2).all
      (fun p => !(namesLanguage "ja" p.text) &&
        !(seqContains (jsStr "日本語") p.text)) = true := by
  decide

set_option maxRecDepth 20000 in
/-- C2 (amended): a DM whose classified language is `unknown` or differs
from the stored target language creates no Submission, changes no point
total, and results in exactly one reply, a DM to the sender; when the
classified language is not `unknown` (a genuine mismatch) that reply names
the expected language, while for `unknown` the reply only asks for the
target language generically. -/
theorem dm_reject_frame
    (env : Env) (fb : List Nat → String → List Nat) (d : Draw) (now : Nat)
    (subId postTs : String) (st : BotState) (msg : Msg) (t : List Nat)
    (u : User) (L : String)
    (him : msg.channel_type = "im")
    (hbot : (msg.user == env.botUserId) = false)
    (htext : msg.text = some t)
    (hne : (jsTrim t).length ≠ 0)
    (huser : mapGet msg.user st.users = some u)
    (htgt : u.targetLanguage = some L)
    (hL : L = "en" ∨ L = "ja")
    (hdet : detectLanguage t ≠ L) :
    (handleMessage env fb d now subId postTs st msg).1.submissions
        = st.submissions ∧
    pointsTotal msg.user (handleMessage env fb d now subId postTs st msg).1
        = pointsTotal msg.user st ∧
    ∃ w, (handleMessage env fb d now subId postTs st msg).2
        = [⟨msg.user, w⟩] ∧
      (detectLanguage t ≠ "unknown" → namesLanguage L w = true) := by
  have hne' : (((jsTrim t).length == 0) : Bool) = false := by simpa using hne
  have hu' : mapHas msg.user st.users = true := by simp [mapHas, huser]
  have hsnd := goc_snd_of_present d now st msg.user "default" u huser
  have hpts := goc_points_of_present d now st msg.user "default" hu'
  have hsubs := goc_submissions d now st msg.user "default"
  have hptsTot :
      pointsTotal msg.user ((getOrCreateUser d now st msg.user "default").1)
        = pointsTotal msg.user st := by
    simp [pointsTotal, hpts]
  rcases hL with rfl | rfl
  · rcases detectLanguage_cases t with hc | hc | hc
    · simp [handleMessage, him, hbot, htext, hne', hsnd, htgt, hc, hsubs,
        hptsTot]
      decide
    · exact absurd hc hdet
    · simp [handleMessage, him, hbot, htext, hne', hsnd, htgt, hc, hsubs,
        hptsTot]
  · rcases detectLanguage_cases t with hc | hc | hc
    · exact absurd hc hdet
    · simp [handleMessage, him, hbot, htext, hne', hsnd, htgt, hc, hsubs,
        hptsTot]
      decide
    · simp [handleMessage, him, hbot, htext, hne', hsnd, htgt, hc, hsubs,
        hptsTot]

/-- C2 (amended) witness: user `U` with target `ja` sends the English text
`"Hello, world."`; nothing is recorded, points stay at 5, and the single
reply to `U` names Japanese. -/
theorem dm_reject_frame_witness :
    (handleMessage env0 fb0 d0 0 "S1" "TS" stW
        ⟨"im", "U", some (jsStr "Hello, world.")⟩).1.submissions
        = stW.submissions ∧
    pointsTotal "U" (handleMessage env0 fb0 d0 0 "S1" "TS" stW
        ⟨"im", "U", some (jsStr "Hello, world.")⟩).1
        = pointsTotal "U" stW ∧
    ∃ w, (handleMessage env0 fb0 d0 0 "S1" "TS" stW
        ⟨"im", "U", some (jsStr "Hello, world.")⟩).2 = [⟨"U", w⟩] ∧
      (detectLanguage (jsStr "Hello, world.") ≠ "unknown" →
        namesLanguage "ja" w = true) :=
  dm_reject_frame env0 fb0 d0 0 "S1" "TS" stW
    ⟨"im", "U", some (jsStr "Hello, world.")⟩ (jsStr "Hello, world.") uJa
    "ja" rfl (by decide) rfl (by decide) (by decide) rfl (Or.inr rfl)
    (by decide)

end PromptBot
